import Mathlib

/-!
Verification of the MONITOR_HARDWARE Modbus master core
(`src/28-11-25/RS485/master_ttgo/src/main.cpp` and `ModbusAPI.cpp`).

Machine integers are modelled as `Nat` with explicit reductions
(`% 256` for `uint8_t`, `% 65536` for `uint16_t`, `% 2^32` for `uint32_t`,
`% 2^64` for `uint64_t`) exactly where the C++ types force a wrap.
-/

/-- `ModbusSensorParam` (main.cpp, lines 50–59): configuration of one sensor.
All fields are machine integers in the source (`uint8_t`/`uint16_t`); they are
kept as `Nat` here, reduced where the code's arithmetic makes width matter. -/
structure ModbusSensorParam where
  sensorID : Nat
  numberOfChannels : Nat
  startAddress : Nat
  maxRegisters : Nat
  samplingInterval : Nat
  dataType : Nat
  scale : Nat
  compressedBytes : Nat
deriving Repr, DecidableEq

/-- `ModbusSlaveParam` (main.cpp, lines 66–70): one slave device on the bus. -/
structure ModbusSlaveParam where
  slaveID : Nat
  sensors : List ModbusSensorParam
  consecutiveFails : Nat
deriving Repr, DecidableEq

/-- `SensorSchedule` (main.cpp, lines 188–193).  The `samplingInterval` field is
`uint16_t` in the source, so every value stored into it is reduced `% 65536`. -/
structure SensorSchedule where
  slaveID : Nat
  sensorID : Nat
  samplingInterval : Nat
  nextSampleTime : Nat
deriving Repr, DecidableEq

/-- The schedule entry `initScheduler` (main.cpp, lines 208–223) builds for one
sensor of one slave: `calculatedInterval` defaults to `sensor.samplingInterval`
and, when `numberOfChannels > 0 && maxRegisters > 0`, becomes
`samplingInterval * (maxRegisters / numberOfChannels)` (C integer division);
it is then cast to `uint16_t` when pushed into the `SensorSchedule`. -/
def scheduleEntryFor (now : Nat) (slaveID : Nat) (sensor : ModbusSensorParam) :
    SensorSchedule :=
  let calculatedInterval :=
    if sensor.numberOfChannels > 0 ∧ sensor.maxRegisters > 0 then
      sensor.samplingInterval * (sensor.maxRegisters / sensor.numberOfChannels)
    else
      sensor.samplingInterval
  { slaveID := slaveID
    sensorID := sensor.sensorID
    samplingInterval := calculatedInterval % 65536
    nextSampleTime := now }

/-- `initScheduler` (main.cpp, lines 204–236): clears `scheduleList` and
repopulates it with one entry per sensor of every slave in `slaveList`,
in list order (`millis()` is passed in as `now`). -/
def initScheduler (slaveList : List ModbusSlaveParam) (now : Nat) :
    List SensorSchedule :=
  slaveList.flatMap fun slave => slave.sensors.map (scheduleEntryFor now slave.slaveID)

/-- Ceiling division, used only to state the spec's formula
`baseSamplingIntervalMs × ceil(maxRegisters / numberOfChannels)` for
comparison against the code's computation. -/
def ceilDiv (a b : Nat) : Nat := (a + b - 1) / b

example :
    (scheduleEntryFor 0 1 ⟨5, 3, 0, 18, 300, 2, 0, 0⟩).samplingInterval = 1800 := by
  decide

example :
    (scheduleEntryFor 0 1 ⟨5, 3, 0, 7, 300, 2, 0, 0⟩).samplingInterval = 600 := by
  decide

/-- `ResponseFormat` (main.cpp, lines 161–166): the raw response handed from the
Modbus data callback to the formatter tasks.  `data` in the source is a fixed
256-byte array of which only the first `length` bytes were copied from the
received message; it is modelled as a total byte function so that the bytes
beyond `length` (uninitialised in the source) stay arbitrary. -/
structure ResponseFormat where
  data : Nat → Nat
  length : Nat

/-- Reading `response.data[i]`: the array cells are `uint8_t`, so every stored
value is reduced `% 256`. -/
def ResponseFormat.byteAt (r : ResponseFormat) (i : Nat) : Nat := r.data i % 256

/-- The `ModbusSensorParam` decoded by `parseAndStoreDiscoveryResponse`
(main.cpp, lines 489–501) from the raw response: register data begins at byte
offset 3; each register is two big-endian bytes. -/
def parseSensor (response : ResponseFormat) : ModbusSensorParam :=
  { sensorID := response.byteAt (3 + 1)
    numberOfChannels := response.byteAt (3 + 3)
    startAddress := response.byteAt (3 + 4) <<< 8 ||| response.byteAt (3 + 5)
    maxRegisters := response.byteAt (3 + 6) <<< 8 ||| response.byteAt (3 + 7)
    samplingInterval := response.byteAt (3 + 8) <<< 8 ||| response.byteAt (3 + 9)
    dataType := response.byteAt (3 + 11)
    scale := response.byteAt (3 + 13)
    compressedBytes := response.byteAt (3 + 15) }

/-- Sensor upsert inside a slave (main.cpp, lines 512–523): overwrite the first
descriptor with the same `sensorID`, else append the new one at the end. -/
def upsertSensor : List ModbusSensorParam → ModbusSensorParam → List ModbusSensorParam
  | [], newSensor => [newSensor]
  | s :: rest, newSensor =>
    if s.sensorID = newSensor.sensorID then newSensor :: rest
    else s :: upsertSensor rest newSensor

/-- Slave upsert (main.cpp, lines 507–532): find the first slave with the given
id and upsert the sensor into it; if absent, append a fresh slave holding just
this sensor, with `consecutiveFails = 0`. -/
def upsertSlave : List ModbusSlaveParam → Nat → ModbusSensorParam → List ModbusSlaveParam
  | [], slaveId, newSensor => [{ slaveID := slaveId, sensors := [newSensor], consecutiveFails := 0 }]
  | s :: rest, slaveId, newSensor =>
    if s.slaveID = slaveId then
      { s with sensors := upsertSensor s.sensors newSensor } :: rest
    else
      s :: upsertSlave rest slaveId newSensor

/-- `parseAndStoreDiscoveryResponse` (main.cpp, lines 482–533): rejects any
response whose total length is below 16 (leaving `slaveList` untouched);
otherwise decodes the descriptor and upserts it into the slave list. -/
def parseAndStoreDiscoveryResponse (slaveList : List ModbusSlaveParam)
    (response : ResponseFormat) (slaveId : Nat) : List ModbusSlaveParam :=
  if response.length < 16 then slaveList
  else upsertSlave slaveList slaveId (parseSensor response)

/-- The sensor list of the first slave with the given id (`[]` when absent);
matches the `find_if` lookups used throughout main.cpp. -/
def deviceSensors (slaveList : List ModbusSlaveParam) (slaveId : Nat) :
    List ModbusSensorParam :=
  match slaveList.find? (fun s => s.slaveID == slaveId) with
  | some slave => slave.sensors
  | none => []

/-- `getRegistersPerChannel` (main.cpp, lines 460–473): looks up the sensor and
returns `(uint8_t)(maxRegisters / numberOfChannels)`, or 0 when the slave or
sensor is missing or `numberOfChannels = 0`. -/
def getRegistersPerChannel (slaveList : List ModbusSlaveParam)
    (slaveId sensorID : Nat) : Nat :=
  match slaveList.find? (fun s => s.slaveID == slaveId) with
  | none => 0
  | some slave =>
    match slave.sensors.find? (fun sensor => sensor.sensorID == sensorID) with
    | none => 0
    | some sensor =>
      if sensor.numberOfChannels > 0 then
        (sensor.maxRegisters / sensor.numberOfChannels) % 256
      else 0

/-- Combined mutable master state: the global `slaveList` and `scheduleList`
of main.cpp. -/
structure MasterState where
  slaveList : List ModbusSlaveParam
  scheduleList : List SensorSchedule
deriving Repr, DecidableEq

/-- The registry mutation of `handleError` (main.cpp, lines 280–309) on a
timeout whose request resolved to `failedSlaveId`: the first matching slave has
`consecutiveFails` incremented (a `uint8_t`, hence `% 256`); if the new value
reaches 3 the slave is erased.  Returns the new list and whether an eviction
happened. -/
def bumpFails : List ModbusSlaveParam → Nat → List ModbusSlaveParam × Bool
  | [], _ => ([], false)
  | s :: rest, failedSlaveId =>
    if s.slaveID = failedSlaveId then
      let newFails := (s.consecutiveFails + 1) % 256
      if newFails ≥ 3 then (rest, true)
      else ({ s with consecutiveFails := newFails } :: rest, false)
    else
      let (rest2, evicted) := bumpFails rest failedSlaveId
      (s :: rest2, evicted)

/-- `handleError` (main.cpp, lines 268–316) on a TIMEOUT error whose token was
found in the request ring and resolved to `failedSlaveId` (the token → slave-id
resolution through `findRequestByToken` is applied, and the token is then
invalidated — neither step touches the registry).  On eviction the code first
erases the slave's entries from `scheduleList` and then calls `initScheduler()`,
which clears and fully rebuilds the schedule from the updated `slaveList`, so
the resulting schedule is `initScheduler slaveList' now`. -/
def handleErrorTimeout (st : MasterState) (failedSlaveId : Nat) (now : Nat) :
    MasterState :=
  let (slaveList2, evicted) := bumpFails st.slaveList failedSlaveId
  if evicted then
    { slaveList := slaveList2, scheduleList := initScheduler slaveList2 now }
  else
    { st with slaveList := slaveList2 }

-- ==================== BIT PACKER ====================

/-- `BitPacker` (main.cpp, lines 600–634): `buffer` is a `uint64_t`
accumulator, `bits_usados` counts its valid low bits. -/
structure BitPacker where
  buffer : Nat
  bits_usados : Nat
deriving Repr, DecidableEq

/-- The `while (bits_usados >= 8)` loop of `BitPacker::push` (main.cpp,
lines 614–621): emit the top byte, drop 8 bits, and mask the buffer down to
the remaining bits (`buffer &= (1 << bits_usados) - 1`, i.e. `% 2 ^ bits`).
Structured with a fuel argument for structural recursion; each iteration
removes 8 bits and the loop stops once fewer than 8 remain, so starting with
`fuel = bits` the fuel can never run out before the loop condition fails
(proved below as `drainBytesAux_fuel_irrelevant`). -/
def drainBytesAux : Nat → Nat → Nat → List Nat → Nat × Nat × List Nat
  | 0, buffer, bits, out => (buffer, bits, out)
  | fuel + 1, buffer, bits, out =>
    if bits ≥ 8 then
      let shift := bits - 8
      let byte := (buffer >>> shift) % 256
      drainBytesAux fuel (buffer % 2 ^ (bits - 8)) (bits - 8) (out ++ [byte])
    else
      (buffer, bits, out)

/-- The drain loop with enough fuel to run to completion. -/
def drainBytes (buffer bits : Nat) (out : List Nat) : Nat × Nat × List Nat :=
  drainBytesAux bits buffer bits out

/-- `BitPacker::push` (main.cpp, lines 605–622): shift the 64-bit accumulator
left by `nbits` (wrapping at 2^64), OR in the low `nbits` of `valor`
(`valor & ((1ULL << nbits) - 1)`, i.e. `% 2 ^ nbits`; `valor` itself is a
`uint16_t`), then drain completed bytes. -/
def BitPacker.push (p : BitPacker) (valor : Nat) (nbits : Nat) (out : List Nat) :
    BitPacker × List Nat :=
  let buf := (p.buffer <<< nbits) % 2 ^ 64
  let buf := buf ||| valor % 65536 % 2 ^ nbits
  let bits := p.bits_usados + nbits
  let (buf2, bits2, out2) := drainBytes buf bits out
  ({ buffer := buf2, bits_usados := bits2 }, out2)

/-- `BitPacker::flush` (main.cpp, lines 624–633): if bits remain, emit them
left-justified in one byte (`(uint8_t)(buffer << (8 - bits_usados))`) and
reset the state. -/
def BitPacker.flush (p : BitPacker) (out : List Nat) : BitPacker × List Nat :=
  if p.bits_usados > 0 then
    let byte := (p.buffer <<< (8 - p.bits_usados)) % 256
    ({ buffer := 0, bits_usados := 0 }, out ++ [byte])
  else
    (p, out)

example :
    (let (p1, o1) := BitPacker.push ⟨0, 0⟩ 3 2 []
     let (p2, o2) := p1.push 1 1 o1
     (p2.flush o2).2) = [224] := by decide

/-- The drain loop's fuel is irrelevant as long as it is at least the bit
count: each iteration consumes 8 bits, so the loop condition fails before the
fuel can run out.  This justifies `drainBytes` using `fuel = bits`. -/
theorem drainBytesAux_fuel_irrelevant (f1 : Nat) :
    ∀ f2 buffer bits out, bits ≤ f1 → bits ≤ f2 →
      drainBytesAux f1 buffer bits out = drainBytesAux f2 buffer bits out := by
  induction f1 with
  | zero =>
    intro f2 buffer bits out h1 h2
    have hb : bits = 0 := Nat.le_zero.mp h1
    subst hb
    cases f2 with
    | zero => rfl
    | succ g => simp [drainBytesAux]
  | succ f ih =>
    intro f2 buffer bits out h1 h2
    cases f2 with
    | zero =>
      have hb : bits = 0 := Nat.le_zero.mp h2
      subst hb
      simp [drainBytesAux]
    | succ g =>
      by_cases hge : bits ≥ 8
      · simp only [drainBytesAux, if_pos hge]
        exact ih g _ _ _ (by omega) (by omega)
      · simp only [drainBytesAux, if_neg hge]

-- ==================== SAMPLE DECODER ====================

/-- The register-pair read loop shared by both branches of
`formatAndEnqueueSensorData` (main.cpp, lines 691–720): for `i` in
`0 .. maxRegisters`, read the big-endian byte pair at `offset = 3 + i*2`,
breaking as soon as `offset + 1 >= response.length`. -/
def readRegPairs (response : ResponseFormat) (maxRegisters : Nat) :
    List (Nat × Nat) :=
  ((List.range maxRegisters).takeWhile fun i => 3 + i * 2 + 1 < response.length).map
    fun i => (response.byteAt (3 + i * 2), response.byteAt (3 + i * 2 + 1))

/-- The value formatting of `formatAndEnqueueSensorData` (main.cpp,
lines 688–721): if `compressedBytes > 0`, feed each 16-bit register
(`raw = high << 8 | low`) into a fresh `BitPacker` with width
`compressedBytes` and flush; otherwise emit the low byte per register when
`dataType == 1`, and high byte then low byte when `dataType == 2` or for any
other value (default branch). -/
def formatSensorValues (params : ModbusSensorParam) (response : ResponseFormat) :
    List Nat :=
  let pairs := readRegPairs response params.maxRegisters
  if params.compressedBytes > 0 then
    let packed := pairs.foldl
      (fun (acc : BitPacker × List Nat) hl =>
        acc.1.push (hl.1 <<< 8 ||| hl.2) params.compressedBytes acc.2)
      (⟨0, 0⟩, [])
    (packed.1.flush packed.2).2
  else
    pairs.flatMap fun hl =>
      if params.dataType = 1 then [hl.2]
      else if params.dataType = 2 then [hl.1, hl.2]
      else [hl.1, hl.2]

/-- `formatAndEnqueueSensorData` (main.cpp, lines 644–726): fails (returns
`false`, modelled `none`) when the slave or the sensor is not in `slaveList`;
otherwise produces the formatted value bytes.  It reads `slaveList` but never
mutates it. -/
def formatAndEnqueueSensorData (slaveList : List ModbusSlaveParam)
    (response : ResponseFormat) (slaveId sensorID : Nat) : Option (List Nat) :=
  match slaveList.find? (fun s => s.slaveID == slaveId) with
  | none => none
  | some slave =>
    match slave.sensors.find? (fun sensor => sensor.sensorID == sensorID) with
    | none => none
    | some params => some (formatSensorValues params response)

/-- `SensorDataPayload` (main.cpp, lines 740–745): the formatted result of one
sampling response, queued for aggregation.  `data` holds the first
`min(values.size, 128)` bytes (`MAX_SENSOR_PAYLOAD = 128`). -/
structure SensorDataPayload where
  slaveId : Nat
  sensorId : Nat
  data : List Nat
deriving Repr, DecidableEq

/-- The `REQUEST_SAMPLING` branch of `DataFormatter` (main.cpp,
lines 802–825): formats the response and, on success, enqueues a
`SensorDataPayload` truncated to 128 bytes.  It mutates neither `slaveList`
nor `scheduleList` — in particular it never touches `consecutiveFails`. -/
def processSamplingSuccess (st : MasterState) (response : ResponseFormat)
    (slaveId sensorId : Nat) : MasterState × Option SensorDataPayload :=
  match formatAndEnqueueSensorData st.slaveList response slaveId sensorId with
  | none => (st, none)
  | some values =>
    (st, some { slaveId := slaveId, sensorId := sensorId, data := values.take 128 })

-- ==================== PAYLOAD AGGREGATOR ====================

/-- The `std::map<uint8_t, const SensorDataPayload*> activeSensors` built in
`construirPayloadUnificado` (main.cpp, lines 916–919): inserting every
collected payload in order keyed by `sensorId` means a key is present iff some
payload carries it, and its value is the last such payload. -/
def lastPayloadFor (collectedPayloads : List SensorDataPayload) (sensorId : Nat) :
    Option SensorDataPayload :=
  (collectedPayloads.filter fun p => p.sensorId == sensorId).getLast?

/-- The activate byte (main.cpp, lines 921–937): bit 0 for sensorId 0
(battery), bit 1 for sensorId 1 (voltage), bit 2 for sensorId 2 (current),
bits 3–7 for sensorIds 3–7 (externals, `SENSOR_ID_EXT_START = 3`,
`MAX_SENSORES_EXTERNOS = 5`). -/
def construirActivateByte (collectedPayloads : List SensorDataPayload) : Nat :=
  let b0 := if (lastPayloadFor collectedPayloads 0).isSome then 1 <<< 0 else 0
  let b1 := if (lastPayloadFor collectedPayloads 1).isSome then 1 <<< 1 else 0
  let b2 := if (lastPayloadFor collectedPayloads 2).isSome then 1 <<< 2 else 0
  let ext := (List.range 5).foldl
    (fun acc i =>
      if (lastPayloadFor collectedPayloads (3 + i)).isSome then acc ||| 1 <<< (i + 3)
      else acc) 0
  b0 ||| b1 ||| b2 ||| ext

/-- One slot's contribution to the length-descriptor section (main.cpp,
lines 939–986): when bit `s` of the activate byte is set, one byte
`getRegistersPerChannel(slaveId, sensorId) & 0x1F` for the payload in that
slot.  No branch of the source ever sets bit 7 (PKD) or bit 6 (2-byte flag). -/
def lenBytesForSlot (slaveList : List ModbusSlaveParam)
    (collectedPayloads : List SensorDataPayload) (activate_byte s : Nat) :
    List Nat :=
  if activate_byte &&& 1 <<< s ≠ 0 then
    match lastPayloadFor collectedPayloads s with
    | some sensor => [getRegistersPerChannel slaveList sensor.slaveId sensor.sensorId &&& 31]
    | none => []
  else []

/-- One slot's contribution to the data-block section (main.cpp,
lines 988–1018): the payload's bytes verbatim when its bit is set. -/
def dataBlockForSlot (collectedPayloads : List SensorDataPayload)
    (activate_byte s : Nat) : List Nat :=
  if activate_byte &&& 1 <<< s ≠ 0 then
    match lastPayloadFor collectedPayloads s with
    | some sensor => sensor.data
    | none => []
  else []

/-- `construirPayloadUnificado` (main.cpp, lines 896–1021):
`[id_mensaje][timestamp big-endian, 4 bytes][activate byte][length bytes in
ascending slot order][data blocks in ascending slot order]`.  The source takes
the timestamp from `time(nullptr)` (a `uint32_t` after the cast); it is passed
in here as `ts_s`.  The source handles slots 0, 1, 2 in three explicit blocks
followed by a loop over slots 3–7; that unrolling equals the fold over
`List.range 8` used here. -/
def construirPayloadUnificado (slaveList : List ModbusSlaveParam)
    (id_mensaje : Nat) (ts_s : Nat)
    (collectedPayloads : List SensorDataPayload) : List Nat :=
  let ts := ts_s % 2 ^ 32
  let activate_byte := construirActivateByte collectedPayloads
  [id_mensaje % 256, ts >>> 24 % 256, ts >>> 16 % 256, ts >>> 8 % 256, ts % 256,
   activate_byte] ++
  ((List.range 8).flatMap fun s =>
    lenBytesForSlot slaveList collectedPayloads activate_byte s) ++
  ((List.range 8).flatMap fun s =>
    dataBlockForSlot collectedPayloads activate_byte s)

-- ==================== SYNCHRONOUS MODBUS API BRIDGE ====================

/-- `ModbusApiError` (ModbusAPI.h, lines 14–23). -/
inductive ModbusApiError where
  | SUCCESS
  | ERROR_TIMEOUT
  | ERROR_MODBUS_TIMEOUT
  | ERROR_MODBUS_EXCEPTION
  | ERROR_QUEUE_FULL
  | ERROR_INVALID_PARAMS
  | ERROR_NOT_FOUND
  | ERROR_INTERNAL
deriving Repr, DecidableEq

/-- `ModbusApiResult` (ModbusAPI.h, lines 28–33); `data` holds the `data_len`
valid bytes.  Fields the error paths of the source leave unset are modelled
as `[]` / `0`. -/
structure ModbusApiResult where
  error_code : ModbusApiError
  data : List Nat
  slave_id : Nat
deriving Repr, DecidableEq

/-- The bridge state of ModbusAPI.cpp: the shared `queueApiResponses`
(capacity 5, ModbusAPI.cpp line 107) read by whichever call is waiting, and
the number of live (created, not yet deleted) completion semaphores. -/
structure ApiState where
  queueApiResponses : List ModbusApiResult
  liveSemaphores : Nat
deriving Repr, DecidableEq

/-- `xQueueSend(queueApiResponses, &result, 0)` (ModbusAPI.cpp lines 39, 60,
85): appends when the 5-slot queue has room, otherwise drops the result. -/
def queueSendResponse (st : ApiState) (result : ModbusApiResult) : ApiState :=
  if st.queueApiResponses.length < 5 then
    { st with queueApiResponses := st.queueApiResponses ++ [result] }
  else st

/-- `xSemaphoreCreateBinary()` succeeding (ModbusAPI.cpp line 117). -/
def createSemaphore (st : ApiState) : ApiState :=
  { st with liveSemaphores := st.liveSemaphores + 1 }

/-- `vSemaphoreDelete` (ModbusAPI.cpp lines 135, 151). -/
def deleteSemaphore (st : ApiState) : ApiState :=
  { st with liveSemaphores := st.liveSemaphores - 1 }

/-- How one logical `modbus_api_read_registers` call resolves.
`callbackDelivered r` covers every case in which the semaphore is given
before the caller's wait expires, with `r` the `ModbusApiResult` the giver
enqueued first: `handle_data_callback` (SUCCESS, ModbusAPI.cpp lines 24–42),
`handle_error_callback` (MODBUS_TIMEOUT / MODBUS_EXCEPTION, lines 45–63), or
the worker task's `addRequest` failure (QUEUE_FULL, lines 80–87).
`waitExpired` is the caller-side `xSemaphoreTake` timing out with no callback
having fired; `submitQueueFull` is `xQueueSend(queueApiRequests, ...)`
failing; `semCreateFail` is `xSemaphoreCreateBinary` returning NULL. -/
inductive CallOutcome where
  | semCreateFail
  | submitQueueFull
  | callbackDelivered (result : ModbusApiResult)
  | waitExpired
deriving Repr, DecidableEq

/-- `modbus_api_read_registers` (ModbusAPI.cpp, lines 113–153), threading the
shared bridge state through one logical call with the given outcome.  On
`callbackDelivered` the woken caller executes
`xQueueReceive(queueApiResponses, &result, 0)`, which dequeues the OLDEST
queued result — not necessarily the one this call's callback enqueued. -/
def modbus_api_read_registers (st : ApiState) (outcome : CallOutcome) :
    ModbusApiResult × ApiState :=
  match outcome with
  | .semCreateFail =>
    ({ error_code := .ERROR_INTERNAL, data := [], slave_id := 0 }, st)
  | .submitQueueFull =>
    let st1 := createSemaphore st
    let st2 := deleteSemaphore st1
    ({ error_code := .ERROR_QUEUE_FULL, data := [], slave_id := 0 }, st2)
  | .callbackDelivered result =>
    let st1 := createSemaphore st
    let st2 := queueSendResponse st1 result
    let returned := st2.queueApiResponses.head?.getD
      { error_code := .ERROR_INTERNAL, data := [], slave_id := 0 }
    let st3 := { st2 with queueApiResponses := st2.queueApiResponses.tail }
    let st4 := deleteSemaphore st3
    (returned, st4)
  | .waitExpired =>
    let st1 := createSemaphore st
    let st2 := deleteSemaphore st1
    ({ error_code := .ERROR_TIMEOUT, data := [], slave_id := 0 }, st2)

/-- A transport callback firing AFTER its caller already timed out and
returned (ModbusAPI.cpp lines 24–42 / 45–63 executing late): the result is
still pushed onto the shared `queueApiResponses`; nobody dequeues it now, so
it stays in front of every later result. -/
def late_callback (st : ApiState) (result : ModbusApiResult) : ApiState :=
  queueSendResponse st result

/-- N sequential synchronous calls. -/
def runCalls (st : ApiState) : List CallOutcome → ApiState
  | [] => st
  | outcome :: rest => runCalls (modbus_api_read_registers st outcome).2 rest

-- ==================== HELPER LEMMAS ====================

/-- Dropping or keeping a result on the shared response queue never changes
the semaphore count. -/
theorem queueSendResponse_liveSemaphores (st : ApiState) (r : ModbusApiResult) :
    (queueSendResponse st r).liveSemaphores = st.liveSemaphores := by
  unfold queueSendResponse
  split <;> rfl

/-- Every exit path of one synchronous call deletes exactly the semaphore it
created. -/
theorem readRegisters_semaphore_balance (st : ApiState) (outcome : CallOutcome) :
    ((modbus_api_read_registers st outcome).2).liveSemaphores = st.liveSemaphores := by
  cases outcome with
  | semCreateFail => rfl
  | submitQueueFull =>
    simp [modbus_api_read_registers, createSemaphore, deleteSemaphore]
  | callbackDelivered r =>
    simp [modbus_api_read_registers, createSemaphore, deleteSemaphore,
      queueSendResponse_liveSemaphores]
  | waitExpired =>
    simp [modbus_api_read_registers, createSemaphore, deleteSemaphore]

/-- `deviceSensors` commutes with `upsertSlave`: the slave the upsert touched
(or appended) is exactly the one `deviceSensors` finds. -/
theorem deviceSensors_upsertSlave (slaveList : List ModbusSlaveParam)
    (slaveId : Nat) (newSensor : ModbusSensorParam) :
    deviceSensors (upsertSlave slaveList slaveId newSensor) slaveId =
      upsertSensor (deviceSensors slaveList slaveId) newSensor := by
  induction slaveList with
  | nil => simp [upsertSlave, deviceSensors, List.find?, upsertSensor]
  | cons s rest ih =>
    by_cases h : s.slaveID = slaveId
    · simp [upsertSlave, deviceSensors, List.find?, h]
    · have hb : (s.slaveID == slaveId) = false := beq_eq_false_iff_ne.mpr h
      simp only [upsertSlave, if_neg h, deviceSensors, List.find?, hb] at ih ⊢
      exact ih

/-- If a sensor list holds at most one descriptor with `newSensor`'s id, then
after `upsertSensor` it holds exactly the new descriptor under that id. -/
theorem filter_upsertSensor (l : List ModbusSensorParam) (ns : ModbusSensorParam)
    (h : (l.filter fun s => s.sensorID == ns.sensorID).length ≤ 1) :
    (upsertSensor l ns).filter (fun s => s.sensorID == ns.sensorID) = [ns] := by
  induction l with
  | nil => simp [upsertSensor]
  | cons s rest ih =>
    by_cases hs : s.sensorID = ns.sensorID
    · have hb : (s.sensorID == ns.sensorID) = true := beq_iff_eq.mpr hs
      have hrest : (rest.filter fun x => x.sensorID == ns.sensorID) = [] := by
        simp only [List.filter_cons, hb, if_true, List.length_cons] at h
        have : (rest.filter fun x => x.sensorID == ns.sensorID).length = 0 := by omega
        simpa [List.length_eq_zero] using this
      simp [upsertSensor, hs, List.filter_cons, hrest]
    · have hb : (s.sensorID == ns.sensorID) = false := beq_eq_false_iff_ne.mpr hs
      simp only [List.filter_cons, hb, Bool.false_eq_true, if_false] at h
      simp only [upsertSensor, if_neg hs, List.filter_cons, hb, Bool.false_eq_true,
        if_false]
      exact ih h

-- ==================== CLAIMS ====================

/-- C1: the claim states `computedIntervalMs = baseSamplingIntervalMs ×
ceil(maxRegisters / numberOfChannels)`; the source (main.cpp line 213) uses C
integer division, i.e. the FLOOR.  At `baseSamplingIntervalMs = 300`,
`maxRegisters = 7`, `numberOfChannels = 3` the schedule entry carries
`300 × 2 = 600 (mod 2^16)` while the claim demands `300 × ceil(7/3) = 900`. -/
theorem C1_counterexample :
    (scheduleEntryFor 0 1 ⟨5, 3, 0, 7, 300, 2, 0, 0⟩).samplingInterval ≠
      300 * ceilDiv 7 3 := by decide

/-- C1 (amended): for every sensor with `numberOfChannels > 0` and
`maxRegisters > 0`, the schedule entry built by the scheduler rebuild has
`computedIntervalMs = baseSamplingIntervalMs × (maxRegisters / numberOfChannels)`
(floor division), reduced modulo 2^16 by the 16-bit schedule field; for
`baseSamplingIntervalMs = 300`, `maxRegisters = 18`, `numberOfChannels = 3`
this is still 1800 ms. -/
theorem C1_schedule_interval (slaveList : List ModbusSlaveParam) (now : Nat)
    (slave : ModbusSlaveParam) (sensor : ModbusSensorParam)
    (hs : slave ∈ slaveList) (hm : sensor ∈ slave.sensors)
    (hc : 0 < sensor.numberOfChannels) (hr : 0 < sensor.maxRegisters) :
    scheduleEntryFor now slave.slaveID sensor ∈ initScheduler slaveList now ∧
    (scheduleEntryFor now slave.slaveID sensor).samplingInterval =
      sensor.samplingInterval * (sensor.maxRegisters / sensor.numberOfChannels) % 65536 := by
  constructor
  · unfold initScheduler
    exact List.mem_flatMap.mpr ⟨slave, hs, List.mem_map_of_mem _ hm⟩
  · unfold scheduleEntryFor
    simp only
    rw [if_pos ⟨hc, hr⟩]

/-- Witness for C1 at the spec's own example (300 ms base, 18 registers,
3 channels → 1800 ms). -/
theorem C1_schedule_interval_witness :
    scheduleEntryFor 0 1 ⟨5, 3, 0, 18, 300, 2, 0, 0⟩ ∈
      initScheduler [⟨1, [⟨5, 3, 0, 18, 300, 2, 0, 0⟩], 0⟩] 0 ∧
    (scheduleEntryFor 0 1 ⟨5, 3, 0, 18, 300, 2, 0, 0⟩).samplingInterval = 1800 := by
  have h := C1_schedule_interval [⟨1, [⟨5, 3, 0, 18, 300, 2, 0, 0⟩], 0⟩] 0
    ⟨1, [⟨5, 3, 0, 18, 300, 2, 0, 0⟩], 0⟩ ⟨5, 3, 0, 18, 300, 2, 0, 0⟩
    (by decide) (by decide) (by decide) (by decide)
  refine ⟨h.1, ?_⟩
  rw [show (scheduleEntryFor 0 1 ⟨5, 3, 0, 18, 300, 2, 0, 0⟩).samplingInterval =
      300 * (18 / 3) % 65536 from h.2]

/-- C4: every exit path of the synchronous read call (success, transport
error, wait timeout, submission-queue failure, and even semaphore-creation
failure) leaves the live-semaphore count exactly as it was, and any sequence
of sequential calls preserves it, so the pool is never exhausted. -/
theorem C4_no_semaphore_leak (st : ApiState) (outcome : CallOutcome)
    (outcomes : List CallOutcome) :
    ((modbus_api_read_registers st outcome).2).liveSemaphores = st.liveSemaphores ∧
    (runCalls st outcomes).liveSemaphores = st.liveSemaphores := by
  refine ⟨readRegisters_semaphore_balance st outcome, ?_⟩
  induction outcomes generalizing st with
  | nil => rfl
  | cons o rest ih =>
    rw [runCalls, ih, readRegisters_semaphore_balance]

/-- C5: the claim says `push(0b011,2); push(0b1,1); flush` on an empty packer
emits the single byte 0b0111_0000 (0x70).  The source left-justifies the three
bits `111`, which gives 0b1110_0000 (0xE0), not 0x70. -/
theorem C5_counterexample :
    (let r1 := BitPacker.push ⟨0, 0⟩ 3 2 []
     let r2 := r1.1.push 1 1 r1.2
     (r2.1.flush r2.2).2) ≠ [112] := by decide

/-- C5 (amended): on an empty `BitPacker`, `push(0b011, 2)` then `push(0b1, 1)`
then `flush` emits exactly one byte, 0b1110_0000 (0xE0): the three pushed bits
`111` left-justified with zero padding in the low bits. -/
theorem C5_push_push_flush :
    (let r1 := BitPacker.push ⟨0, 0⟩ 3 2 []
     let r2 := r1.1.push 1 1 r1.2
     (r2.1.flush r2.2).2) = [224] := by decide

/-- C9: `build(messageId, [])` — `construirPayloadUnificado` with no collected
samples — returns exactly 6 bytes: the message id, the 4 big-endian timestamp
bytes, and a zero activate byte, with no length bytes and no data blocks. -/
theorem C9_empty_build (slaveList : List ModbusSlaveParam) (id_mensaje ts_s : Nat) :
    construirPayloadUnificado slaveList id_mensaje ts_s [] =
      [id_mensaje % 256, (ts_s % 2 ^ 32) >>> 24 % 256, (ts_s % 2 ^ 32) >>> 16 % 256,
       (ts_s % 2 ^ 32) >>> 8 % 256, ts_s % 2 ^ 32 % 256, 0] ∧
    (construirPayloadUnificado slaveList id_mensaje ts_s []).length = 6 := by
  have h : construirPayloadUnificado slaveList id_mensaje ts_s [] =
      [id_mensaje % 256, (ts_s % 2 ^ 32) >>> 24 % 256, (ts_s % 2 ^ 32) >>> 16 % 256,
       (ts_s % 2 ^ 32) >>> 8 % 256, ts_s % 2 ^ 32 % 256, 0] := by
    simp [construirPayloadUnificado, construirActivateByte, lastPayloadFor,
      lenBytesForSlot, dataBlockForSlot, List.range_succ]
  exact ⟨h, by rw [h]; rfl⟩

/-- C10: for every sensor taking the computed-interval branch
(`numberOfChannels > 0` and `maxRegisters > 0`), the stored schedule interval
is the product `baseSamplingIntervalMs × (maxRegisters / numberOfChannels)`
reduced modulo 2^16 (the `SensorSchedule.samplingInterval` field is 16-bit),
and whenever the true product is at least 65536 the stored interval is smaller
than the product by at least 65536. -/
theorem C10_interval_wraps (now slaveID : Nat) (sensor : ModbusSensorParam)
    (hc : 0 < sensor.numberOfChannels) (hr : 0 < sensor.maxRegisters) :
    (scheduleEntryFor now slaveID sensor).samplingInterval =
      sensor.samplingInterval * (sensor.maxRegisters / sensor.numberOfChannels) % 65536 ∧
    (65536 ≤ sensor.samplingInterval * (sensor.maxRegisters / sensor.numberOfChannels) →
      (scheduleEntryFor now slaveID sensor).samplingInterval + 65536 ≤
        sensor.samplingInterval * (sensor.maxRegisters / sensor.numberOfChannels)) := by
  have heq : (scheduleEntryFor now slaveID sensor).samplingInterval =
      sensor.samplingInterval * (sensor.maxRegisters / sensor.numberOfChannels) % 65536 := by
    unfold scheduleEntryFor
    simp only
    rw [if_pos ⟨hc, hr⟩]
  refine ⟨heq, fun hbig => ?_⟩
  rw [heq]
  omega

/-- Witness for C10: base 30000 ms, 3 registers, 1 channel → true product
90000 ≥ 65536, stored interval 24464 = 90000 - 65536. -/
theorem C10_interval_wraps_witness :
    (0 : Nat) < 1 ∧ (0 : Nat) < 3 ∧
    (scheduleEntryFor 0 1 ⟨5, 1, 0, 3, 30000, 2, 0, 0⟩).samplingInterval + 65536 ≤
      30000 * (3 / 1) := by
  exact ⟨by decide, by decide,
    (C10_interval_wraps 0 1 ⟨5, 1, 0, 3, 30000, 2, 0, 0⟩ (by decide) (by decide)).2
      (by decide)⟩

/-- C2 (code bug): the source never resets `consecutiveFails` on a successful
sample — the `REQUEST_SAMPLING` branch of `DataFormatter` leaves the registry
untouched — so three NON-consecutive timeouts still evict.  Here device 1
suffers timeout, timeout, a fully successful sample (which produces a
payload and provably changes nothing), then a third timeout: after it the
device is gone from both the registry and the (rebuilt) schedule, although
the claim says the interleaved success must reset the counter to 0. -/
theorem C2_nonconsecutive_failures_still_evict :
    (let st0 : MasterState :=
       ⟨[⟨1, [⟨5, 1, 0, 2, 100, 2, 0, 0⟩], 0⟩],
        initScheduler [⟨1, [⟨5, 1, 0, 2, 100, 2, 0, 0⟩], 0⟩] 0⟩
     let st1 := handleErrorTimeout st0 1 10
     let st2 := handleErrorTimeout st1 1 20
     let succ := processSamplingSuccess st2 ⟨fun i => i, 7⟩ 1 5
     let st4 := handleErrorTimeout succ.1 1 30
     st1.slaveList.map ModbusSlaveParam.consecutiveFails = [1] ∧
     st2.slaveList.map ModbusSlaveParam.consecutiveFails = [2] ∧
     succ.2.isSome = true ∧
     succ.1 = st2 ∧
     st4.slaveList = [] ∧
     st4.scheduleList = []) := by decide

/-- C3: as stated the claim is false.  Call 1's wait expires (returning
`ERROR_TIMEOUT`) before any callback fires; the late callback then enqueues
its result `{SUCCESS, [1], slave 9}` on the shared response queue; a later
logical call whose own callback delivers `{SUCCESS, [2], slave 7}` dequeues
the OLDEST entry and thus returns the earlier call's late result — the late
delivery is applied to a different, later logical call. -/
theorem C3_counterexample :
    (let call1 := modbus_api_read_registers ⟨[], 0⟩ .waitExpired
     let stLate := late_callback call1.2 ⟨.SUCCESS, [1], 9⟩
     let call2 := modbus_api_read_registers stLate
       (.callbackDelivered ⟨.SUCCESS, [2], 7⟩)
     call1.1.error_code = .ERROR_TIMEOUT ∧
     call2.1 = ⟨.SUCCESS, [1], 9⟩ ∧
     call2.1 ≠ ⟨.SUCCESS, [2], 7⟩) := by decide

/-- C3 (amended): if the caller-side wait expires before any callback fires,
the call does return the Timeout error; but a late-arriving callback result is
NOT discarded — it is appended to the shared response queue, and the next
call that completes its wait dequeues it, returning the stale result as its
own. -/
theorem C3_timeout_and_late_result_reuse (st : ApiState) (r1 r2 : ModbusApiResult)
    (hq : st.queueApiResponses = []) :
    (modbus_api_read_registers st .waitExpired).1.error_code = .ERROR_TIMEOUT ∧
    (modbus_api_read_registers
        (late_callback (modbus_api_read_registers st .waitExpired).2 r1)
        (.callbackDelivered r2)).1 = r1 := by
  constructor
  · rfl
  · simp [modbus_api_read_registers, late_callback, queueSendResponse,
      createSemaphore, deleteSemaphore, hq]

/-- Witness for C3 (amended), at an initially empty bridge state. -/
theorem C3_timeout_and_late_result_reuse_witness :
    (⟨[], 0⟩ : ApiState).queueApiResponses = [] ∧
    (modbus_api_read_registers (⟨[], 0⟩ : ApiState) .waitExpired).1.error_code =
      .ERROR_TIMEOUT ∧
    (modbus_api_read_registers
        (late_callback (modbus_api_read_registers (⟨[], 0⟩ : ApiState) .waitExpired).2
          ⟨.SUCCESS, [1], 9⟩)
        (.callbackDelivered ⟨.SUCCESS, [2], 7⟩)).1 = ⟨.SUCCESS, [1], 9⟩ := by
  have h := C3_timeout_and_late_result_reuse ⟨[], 0⟩ ⟨.SUCCESS, [1], 9⟩
    ⟨.SUCCESS, [2], 7⟩ rfl
  exact ⟨rfl, h.1, h.2⟩

/-- C6 (code bug): the guard in `parseAndStoreDiscoveryResponse` tests the
TOTAL response length (3-byte Modbus header included) against 16, although by
the function's own comment 16 DATA bytes are expected and the register data
starts at offset 3.  A response of total length 16 therefore carries only 13
register-payload bytes — fewer than the required 16 — yet passes the guard
and mutates the registry (here: creates a device in an empty registry), while
a total length of 15 is rejected and leaves the registry unchanged. -/
theorem C6_short_payload_mutates_registry :
    parseAndStoreDiscoveryResponse [] ⟨fun i => i, 16⟩ 1 ≠ [] ∧
    parseAndStoreDiscoveryResponse [] ⟨fun i => i, 15⟩ 1 = [] := by decide

/-- C7: the claim requires bit 7 of a length-descriptor byte to be set iff the
sensor's output is bit-packed.  No branch of `construirPayloadUnificado` ever
sets bit 7: for a bit-packed sensor (`compressedBytes = 4`, dataType 3) with
`registersPerChannel = 2` in slot 0, the emitted length byte (payload index 6)
is 2, not `2 ||| 128` as the claim demands. -/
theorem C7_counterexample :
    (construirPayloadUnificado [⟨1, [⟨0, 1, 0, 2, 100, 3, 0, 4⟩], 0⟩] 7 0
      [⟨1, 0, [171]⟩])[6]? = some 2 ∧ (2 : Nat) ≠ 2 ||| 128 := by decide

/-- C7 (amended): for any collection whose sensorIds are exactly {0, 2, 5},
`construirPayloadUnificado` emits activate byte 0b0010_0101 (37), then exactly
3 length-descriptor bytes and then exactly 3 data blocks, both in ascending
slot order 0, 2, 5; each length byte is `registersPerChannel(deviceId,
sensorId) & 0x1F` — with bit 7 NEVER set, whether or not the sensor's output
is bit-packed (the source sets no packing flag on any branch). -/
theorem C7_build_for_slots_0_2_5 (slaveList : List ModbusSlaveParam)
    (id_mensaje ts_s : Nat) (collectedPayloads : List SensorDataPayload)
    (p0 p2 p5 : SensorDataPayload)
    (h0 : lastPayloadFor collectedPayloads 0 = some p0)
    (h1 : lastPayloadFor collectedPayloads 1 = none)
    (h2 : lastPayloadFor collectedPayloads 2 = some p2)
    (h3 : lastPayloadFor collectedPayloads 3 = none)
    (h4 : lastPayloadFor collectedPayloads 4 = none)
    (h5 : lastPayloadFor collectedPayloads 5 = some p5)
    (h6 : lastPayloadFor collectedPayloads 6 = none)
    (h7 : lastPayloadFor collectedPayloads 7 = none) :
    construirPayloadUnificado slaveList id_mensaje ts_s collectedPayloads =
      [id_mensaje % 256, (ts_s % 2 ^ 32) >>> 24 % 256, (ts_s % 2 ^ 32) >>> 16 % 256,
       (ts_s % 2 ^ 32) >>> 8 % 256, ts_s % 2 ^ 32 % 256, 37,
       getRegistersPerChannel slaveList p0.slaveId p0.sensorId &&& 31,
       getRegistersPerChannel slaveList p2.slaveId p2.sensorId &&& 31,
       getRegistersPerChannel slaveList p5.slaveId p5.sensorId &&& 31] ++
      p0.data ++ p2.data ++ p5.data := by
  have hab : construirActivateByte collectedPayloads = 37 := by
    simp [construirActivateByte, List.range_succ, h0, h1, h2, h3, h4, h5, h6, h7]
  simp [construirPayloadUnificado, hab, lenBytesForSlot, dataBlockForSlot,
    List.range_succ, h0, h1, h2, h3, h4, h5, h6, h7]

/-- Witness for C7 (amended): three samples for sensorIds 0, 2, 5 against an
empty registry (so every `registersPerChannel` is 0). -/
theorem C7_build_for_slots_0_2_5_witness :
    construirPayloadUnificado [] 9 0 [⟨1, 0, [10]⟩, ⟨1, 2, [20]⟩, ⟨1, 5, [30]⟩] =
      [9, 0, 0, 0, 0, 37, 0, 0, 0, 10, 20, 30] := by
  rw [C7_build_for_slots_0_2_5 [] 9 0 [⟨1, 0, [10]⟩, ⟨1, 2, [20]⟩, ⟨1, 5, [30]⟩]
    ⟨1, 0, [10]⟩ ⟨1, 2, [20]⟩ ⟨1, 5, [30]⟩ (by decide) (by decide) (by decide)
    (by decide) (by decide) (by decide) (by decide) (by decide)]
  decide

/-- C8: processing two successful discovery responses for the same slave and
the same sensorId (each with full length, here at least 16 as the source's
guard requires) leaves that slave holding exactly ONE descriptor under that
sensorId, and its field values are those decoded from the SECOND response —
rediscovery overwrites, never duplicates.  The hypothesis `huniq` is the
registry invariant that a device's sensor ids are unique (at most one
descriptor per id) before the rediscovery. -/
theorem C8_rediscovery_overwrites (slaveList : List ModbusSlaveParam)
    (slaveId : Nat) (r1 r2 : ResponseFormat)
    (hl1 : 16 ≤ r1.length) (hl2 : 16 ≤ r2.length)
    (hsame : (parseSensor r1).sensorID = (parseSensor r2).sensorID)
    (huniq : ((deviceSensors slaveList slaveId).filter
        fun s => s.sensorID == (parseSensor r2).sensorID).length ≤ 1) :
    (deviceSensors
        (parseAndStoreDiscoveryResponse
          (parseAndStoreDiscoveryResponse slaveList r1 slaveId) r2 slaveId)
        slaveId).filter (fun s => s.sensorID == (parseSensor r2).sensorID) =
      [parseSensor r2] := by
  have e1 : parseAndStoreDiscoveryResponse slaveList r1 slaveId =
      upsertSlave slaveList slaveId (parseSensor r1) := by
    unfold parseAndStoreDiscoveryResponse
    rw [if_neg (by omega)]
  have e2 : parseAndStoreDiscoveryResponse
      (upsertSlave slaveList slaveId (parseSensor r1)) r2 slaveId =
      upsertSlave (upsertSlave slaveList slaveId (parseSensor r1)) slaveId
        (parseSensor r2) := by
    unfold parseAndStoreDiscoveryResponse
    rw [if_neg (by omega)]
  rw [e1, e2, deviceSensors_upsertSlave]
  apply filter_upsertSensor
  rw [deviceSensors_upsertSlave]
  have efirst : (upsertSensor (deviceSensors slaveList slaveId)
      (parseSensor r1)).filter
      (fun s => s.sensorID == (parseSensor r1).sensorID) = [parseSensor r1] := by
    apply filter_upsertSensor
    rw [hsame]
    exact huniq
  rw [hsame] at efirst
  rw [efirst]
  simp

/-- Witness for C8: slave 1 discovered twice with different descriptor bytes
for the same sensorId 4, starting from an empty registry. -/
theorem C8_rediscovery_overwrites_witness :
    (16 ≤ (⟨fun i => i, 19⟩ : ResponseFormat).length) ∧
    (deviceSensors
        (parseAndStoreDiscoveryResponse
          (parseAndStoreDiscoveryResponse [] ⟨fun i => i, 19⟩ 1)
          ⟨fun i => if i == 4 then 4 else i + 1, 19⟩ 1)
        1).filter
      (fun s => s.sensorID ==
        (parseSensor ⟨fun i => if i == 4 then 4 else i + 1, 19⟩).sensorID) =
      [parseSensor ⟨fun i => if i == 4 then 4 else i + 1, 19⟩] := by
  exact ⟨by decide,
    C8_rediscovery_overwrites [] 1 ⟨fun i => i, 19⟩
      ⟨fun i => if i == 4 then 4 else i + 1, 19⟩
      (by decide) (by decide) (by decide) (by decide)⟩
